import Mathlib

/-!
Verification of the training-loop orchestrator in `src/common/train/trainer.py`
and of the two pluggable-strategy files `src/opt/group_rmsprop_optimizer.py`
and `src/common/evaluation/metrics/regression.py`.

The trainer is embedded as an instrumented interpreter: the mutable trainer
state visible to the claims is the epoch counter and the model's train/eval
mode; every call the trainer makes into plugged-in code (callbacks, the
abstract `batch_update`, the evaluators) is recorded as an `Event` in a trace,
and an environment decides at each such call whether that plugged-in code
raises an exception (`StopFitIteration` or a generic one).  Exception
propagation is explicit: every computation returns its state at exit, the
trace of events emitted so far, and the exception in flight, if any.
Data payloads that no claim inspects (batch contents, batch-update outputs,
per-batch metric dictionaries) are abstracted away; the tracked-value
snapshots read at the end of `fit` are carried opaquely by the environment.
`validate_every` is assumed positive (Python raises ZeroDivisionError on 0,
which is outside the modelled domain).
-/

namespace TrainerCore

/-- Exceptions that plugged-in code can raise inside `fit`: the graceful-stop
signal `StopFitIteration`, or any other exception.  The `id` distinguishes
exception instances so that "the same exception" is expressible. -/
inductive Exc where
  | stopFit (id : Nat)
  | fatal (id : Nat)
deriving DecidableEq, Repr

/-- One call from the trainer into plugged-in code or one trainer-side mode
switch, mirroring trainer.py: callback events, evaluator calls, the abstract
`batch_update`, and `model.train()` / `model.eval()` switches. -/
inductive Event where
  | on_fit_start (numEpochs : Nat)
  | on_epoch_start (epoch : Int)
  | set_mode (training : Bool)
  | on_epoch_train_start (numBatches : Nat)
  | train_evaluator_epoch_start (epoch : Int)
  | on_train_batch_start (batchNum : Nat)
  | batch_update (batchNum : Nat)
  | evaluate_batch (batchNum : Nat)
  | on_train_batch_end (batchNum : Nat)
  | train_evaluator_epoch_end (epoch : Int)
  | on_epoch_train_end (epoch : Int)
  | on_epoch_validation_start (epoch : Int)
  | val_evaluator_epoch_start (epoch : Int)
  | val_evaluate (epoch : Int)
  | val_evaluator_epoch_end (epoch : Int)
  | on_epoch_validation_end (epoch : Int)
  | on_epoch_end (epoch : Int)
  | on_exception (e : Exc)
  | on_fit_end (epochsRun : Int)
deriving DecidableEq, Repr

/-- The trainer state the claims observe: `self.epoch` and `self.model.training`. -/
structure TrainerSt where
  epoch : Int
  training : Bool
deriving DecidableEq, Repr

/-- The plugged-in collaborators: at each call the trainer makes (identified by
the current epoch and the event), the environment may raise an exception, as a
callback, `batch_update` or an evaluator would.  `trainTracked` / `valTracked`
are the opaque snapshots returned by `get_tracked_values()` on the two
evaluators at the end of `fit`. -/
structure Env where
  raise : Int → Event → Option Exc
  trainTracked : List (String × Rat)
  valTracked : List (String × Rat)

/-- A computation inside the `try` block of `fit`: from a trainer state it
produces the state at exit, the events emitted, and the exception in flight
if one was raised. -/
def M := TrainerSt → TrainerSt × List Event × Option Exc

/-- The do-nothing computation. -/
def M.pure : M := fun st => (st, [], none)

/-- Sequencing: if the first part raises, its result (state at raise, trace so
far, exception) propagates unchanged and the second part never runs (Python
exception propagation); otherwise the second part runs from the first's final
state and the traces concatenate. -/
def M.bind (a b : M) : M := fun st =>
  match (a st).2.2 with
  | some _ => a st
  | none => ((b (a st).1).1, (a st).2.1 ++ (b (a st).1).2.1, (b (a st).1).2.2)

/-- One call into plugged-in code: emit the event, and propagate whatever the
environment raises there. -/
def hookM (env : Env) (f : TrainerSt → Event) : M := fun st =>
  (st, [f st], env.raise st.epoch (f st))

/-- model.train(b) / model.eval(): a trainer-side action, it cannot raise. -/
def setMode (b : Bool) : M := fun st =>
  ({ st with training := b }, [Event.set_mode b], none)

/-- self.epoch += 1. -/
def incEpoch : M := fun st =>
  ({ st with epoch := st.epoch + 1 }, [], none)

/-- The body of `for batch_num, batch in enumerate(data_loader)` in
`Trainer.__train`, over the list of batch indices. -/
def batchSeq (env : Env) : List Nat → M
  | [] => M.pure
  | k :: ks =>
    M.bind (hookM env fun _ => Event.on_train_batch_start k) <|
    M.bind (hookM env fun _ => Event.batch_update k) <|
    M.bind (hookM env fun _ => Event.evaluate_batch k) <|
    M.bind (hookM env fun _ => Event.on_train_batch_end k) <|
    batchSeq env ks

/-- Embedding of `Trainer.__train` (trainer.py lines 83-100): set train mode, emit
`on_epoch_train_start(len(data_loader))`, evaluator `epoch_start`, the batch
loop, evaluator `epoch_end`, `on_epoch_train_end`. -/
def trainPhase (env : Env) (numBatches : Nat) : M :=
  M.bind (setMode true) <|
  M.bind (hookM env fun _ => Event.on_epoch_train_start numBatches) <|
  M.bind (hookM env fun st => Event.train_evaluator_epoch_start st.epoch) <|
  M.bind (batchSeq env (List.range numBatches)) <|
  M.bind (hookM env fun st => Event.train_evaluator_epoch_end st.epoch) <|
  (hookM env fun st => Event.on_epoch_train_end st.epoch)

/-- Embedding of `Trainer.__validate` (trainer.py lines 102-111): set eval mode,
`on_epoch_validation_start`, evaluator `epoch_start`, `evaluate()` under
no-grad, evaluator `epoch_end`, `on_epoch_validation_end`. -/
def validatePhase (env : Env) : M :=
  M.bind (setMode false) <|
  M.bind (hookM env fun st => Event.on_epoch_validation_start st.epoch) <|
  M.bind (hookM env fun st => Event.val_evaluator_epoch_start st.epoch) <|
  M.bind (hookM env fun st => Event.val_evaluate st.epoch) <|
  M.bind (hookM env fun st => Event.val_evaluator_epoch_end st.epoch) <|
  (hookM env fun st => Event.on_epoch_validation_end st.epoch)

/-- One iteration of the epoch loop (trainer.py lines 59-67): increment epoch,
`on_epoch_start`, training phase, validation phase iff
`(self.epoch + 1) % validate_every == 0`, `on_epoch_end`. -/
def epochIter (env : Env) (validateEvery : Int) (numBatches : Nat) : M :=
  M.bind incEpoch <|
  M.bind (hookM env fun st => Event.on_epoch_start st.epoch) <|
  M.bind (trainPhase env numBatches) <|
  M.bind (fun st =>
    if (st.epoch + 1) % validateEvery = 0 then validatePhase env st else M.pure st) <|
  (hookM env fun st => Event.on_epoch_end st.epoch)

/-- The loop `for i in range(num_epochs)` around `epochIter`. -/
def epochLoop (env : Env) (validateEvery : Int) (numBatches : Nat) : Nat → M
  | 0 => M.pure
  | n + 1 => M.bind (epochIter env validateEvery numBatches) (epochLoop env validateEvery numBatches n)

/-- The whole `try` block of `fit` (trainer.py lines 55-67):
`on_fit_start(num_epochs)` followed by the epoch loop.  (`model.to(device)` is
a no-op on the modelled state.) -/
def tryBlock (env : Env) (numEpochs : Nat) (validateEvery : Int) (numBatches : Nat) : M :=
  M.bind (hookM env fun _ => Event.on_fit_start numEpochs) (epochLoop env validateEvery numBatches numEpochs)

/-- The `FitOutput` record: the exception captured on graceful stop, and the
train/val tracked-value snapshots, absent until populated at the end of `fit`.
(The shared value-store reference carries no claim-relevant data and is
omitted.) -/
structure FitOutput where
  exception : Option Exc
  train_tracked_values : Option (List (String × Rat))
  val_tracked_values : Option (List (String × Rat))
deriving DecidableEq, Repr

deriving instance DecidableEq for Except

/-- Everything observable about one `fit` call: the trainer state after it
exits, the full event trace, and either the returned `FitOutput` or the
exception propagated to the caller. -/
structure FitResult where
  st : TrainerSt
  trace : List Event
  result : Except Exc FitOutput
deriving DecidableEq, Repr

/-- The exception handling and epilogue of `Trainer.fit` (trainer.py lines
68-81), applied to the outcome `r` of the `try` block.  On `StopFitIteration`
it emits `on_exception`, records the signal on the output and falls through to
the normal epilogue; on any other exception it emits `on_exception` and
re-raises; the `finally` clause restores the model mode recorded on entry on
every path; the epilogue populates both tracked-value snapshots and emits
`on_fit_end(self.epoch - start_epoch, output)`. -/
def fitEpilogue (env : Env) (st0 : TrainerSt)
    (r : TrainerSt × List Event × Option Exc) : FitResult :=
  match r with
  | (st1, t1, none) =>
    { st := { st1 with training := st0.training },
      trace := t1 ++ [Event.on_fit_end (st1.epoch - st0.epoch)],
      result := Except.ok
        { exception := none,
          train_tracked_values := some env.trainTracked,
          val_tracked_values := some env.valTracked } }
  | (st1, t1, some (Exc.stopFit id)) =>
    { st := { st1 with training := st0.training },
      trace := t1 ++ [Event.on_exception (Exc.stopFit id), Event.on_fit_end (st1.epoch - st0.epoch)],
      result := Except.ok
        { exception := some (Exc.stopFit id),
          train_tracked_values := some env.trainTracked,
          val_tracked_values := some env.valTracked } }
  | (st1, t1, some (Exc.fatal id)) =>
    { st := { st1 with training := st0.training },
      trace := t1 ++ [Event.on_exception (Exc.fatal id)],
      result := Except.error (Exc.fatal id) }

/-- Embedding of `Trainer.fit`: run the `try` block, then dispatch on the exception in
flight as the `except`/`finally`/epilogue code does. -/
def fit (env : Env) (st0 : TrainerSt) (numEpochs : Nat) (validateEvery : Int)
    (numBatches : Nat) : FitResult :=
  fitEpilogue env st0 (tryBlock env numEpochs validateEvery numBatches st0)

/-- Embedding of `Trainer.__init__` (trainer.py line 30): the epoch counter starts at -1;
the model's initial mode is whatever the externally constructed model has. -/
def Trainer.new (training : Bool) : TrainerSt :=
  { epoch := -1, training := training }

/-! Closed-form traces of the exception-free runs of each phase. -/

/-- The four events of one iteration of the train batch loop. -/
def batchEvents (k : Nat) : List Event :=
  [Event.on_train_batch_start k, Event.batch_update k,
   Event.evaluate_batch k, Event.on_train_batch_end k]

/-- Trace of the whole batch loop. -/
def batchTrace (ks : List Nat) : List Event := ks.flatMap batchEvents

/-- Trace of one training phase run at epoch `ep` over `nb` batches. -/
def trainTrace (ep : Int) (nb : Nat) : List Event :=
  [Event.set_mode true, Event.on_epoch_train_start nb,
   Event.train_evaluator_epoch_start ep] ++
  batchTrace (List.range nb) ++
  [Event.train_evaluator_epoch_end ep, Event.on_epoch_train_end ep]

/-- Trace of one validation phase run at epoch `ep`. -/
def valTrace (ep : Int) : List Event :=
  [Event.set_mode false, Event.on_epoch_validation_start ep,
   Event.val_evaluator_epoch_start ep, Event.val_evaluate ep,
   Event.val_evaluator_epoch_end ep, Event.on_epoch_validation_end ep]

/-- Trace of one full epoch-loop iteration run at (already incremented)
epoch `ep`. -/
def epochIterTrace (ve : Int) (nb : Nat) (ep : Int) : List Event :=
  [Event.on_epoch_start ep] ++ trainTrace ep nb ++
  (if (ep + 1) % ve = 0 then valTrace ep else []) ++
  [Event.on_epoch_end ep]

/-- Trace of `n` epoch-loop iterations starting from epoch counter `startEp`. -/
def loopTrace (ve : Int) (nb : Nat) (startEp : Int) : Nat → List Event
  | 0 => []
  | n + 1 => epochIterTrace ve nb (startEp + 1) ++ loopTrace ve nb (startEp + 1) n

/-- Events that the body of the fit loop can emit (everything except
`on_exception` and `on_fit_end`, which only the exception handlers and the
epilogue of `fit` emit). -/
def fitLoopEv : Event → Bool := fun e =>
  match e with
  | Event.on_exception _ => false
  | Event.on_fit_end _ => false
  | _ => true

/-- All events a computation ever emits are fit-loop events. -/
def TraceOK (m : M) : Prop := ∀ st, ∀ x ∈ (m st).2.1, fitLoopEv x = true

/-- Recognizer for `on_epoch_start` events. -/
def isEpochStartEv : Event → Bool := fun e =>
  match e with
  | Event.on_epoch_start _ => true
  | _ => false

/-- Recognizer for `on_fit_end` events. -/
def isFitEndEv : Event → Bool := fun e =>
  match e with
  | Event.on_fit_end _ => true
  | _ => false

/-! Concrete environments used to exercise the theorems on closed runs. -/

/-- An environment in which no plugged-in code ever raises. -/
def noRaiseEnv : Env :=
  { raise := fun _ _ => none, trainTracked := [], valTracked := [] }

/-- An environment whose `on_train_batch_end` callback raises the graceful
stop signal at epoch 2, as in the spec's example. -/
def stopAtEpoch2Env : Env :=
  { raise := fun ep e =>
      match e with
      | Event.on_train_batch_end _ => if ep = 2 then some (Exc.stopFit 7) else none
      | _ => none,
    trainTracked := [("loss", (1 : Rat))], valTracked := [] }

/-- An environment whose `batch_update` raises a generic error on every
batch. -/
def fatalBatchEnv : Env :=
  { raise := fun _ e =>
      match e with
      | Event.batch_update _ => some (Exc.fatal 3)
      | _ => none,
    trainTracked := [], valTracked := [] }

end TrainerCore

namespace TrainerCheckpoint

open TrainerCore (Exc)

/-- One pluggable collaborator of the Trainer, abstracted to its live state
type, its serialized-state type, its own `state_dict` (save) and
`load_state_dict` (load).  A load may raise: checkpoint errors surface as
exceptions from the collaborator (trainer.py performs no validation of its
own). -/
structure Collab where
  St : Type
  Sd : Type
  save : St → Sd
  load : Sd → St → Except Exc St

/-- The six collaborators the Trainer serializes besides `epoch`
(trainer.py lines 113-122). -/
structure Collabs where
  model : Collab
  optimizer : Collab
  value_store : Collab
  train_evaluator : Collab
  val_evaluator : Collab
  callback : Collab

/-- The trainer state that `state_dict`/`load_state_dict` touch: the six
collaborators' live states plus the epoch counter. -/
structure TrainerFull (C : Collabs) where
  model : C.model.St
  optimizer : C.optimizer.St
  value_store : C.value_store.St
  train_evaluator : C.train_evaluator.St
  val_evaluator : C.val_evaluator.St
  callback : C.callback.St
  epoch : Int

/-- One value of the checkpoint mapping: a collaborator's serialized state, or
the epoch counter. -/
inductive SdVal (C : Collabs) where
  | model (s : C.model.Sd)
  | optimizer (s : C.optimizer.Sd)
  | value_store (s : C.value_store.Sd)
  | train_evaluator (s : C.train_evaluator.Sd)
  | val_evaluator (s : C.val_evaluator.Sd)
  | callback (s : C.callback.Sd)
  | epoch (n : Int)

/-- Exception standing for Python's KeyError (or a wrongly-typed entry) when a
key is read out of the checkpoint mapping. -/
def keyError : Exc := Exc.fatal 0

/-- Embedding of `Trainer.state_dict` (trainer.py lines 113-122): the checkpoint mapping,
with each collaborator's entry being that collaborator's own serialized
state and `epoch` the integer counter. -/
def state_dict {C : Collabs} (t : TrainerFull C) : List (String × SdVal C) :=
  [("model", SdVal.model (C.model.save t.model)),
   ("optimizer", SdVal.optimizer (C.optimizer.save t.optimizer)),
   ("value_store", SdVal.value_store (C.value_store.save t.value_store)),
   ("train_evaluator", SdVal.train_evaluator (C.train_evaluator.save t.train_evaluator)),
   ("val_evaluator", SdVal.val_evaluator (C.val_evaluator.save t.val_evaluator)),
   ("callback", SdVal.callback (C.callback.save t.callback)),
   ("epoch", SdVal.epoch t.epoch)]

/-- Reading `state_dict["model"]`, requiring the entry to carry a model
serialized state. -/
def getModel {C : Collabs} (sd : List (String × SdVal C)) : Option C.model.Sd :=
  match sd.lookup "model" with
  | some (SdVal.model s) => some s
  | _ => none

/-- Reading `state_dict["optimizer"]`. -/
def getOptimizer {C : Collabs} (sd : List (String × SdVal C)) : Option C.optimizer.Sd :=
  match sd.lookup "optimizer" with
  | some (SdVal.optimizer s) => some s
  | _ => none

/-- Reading `state_dict["value_store"]`. -/
def getValueStore {C : Collabs} (sd : List (String × SdVal C)) : Option C.value_store.Sd :=
  match sd.lookup "value_store" with
  | some (SdVal.value_store s) => some s
  | _ => none

/-- Reading `state_dict["train_evaluator"]`. -/
def getTrainEvaluator {C : Collabs} (sd : List (String × SdVal C)) : Option C.train_evaluator.Sd :=
  match sd.lookup "train_evaluator" with
  | some (SdVal.train_evaluator s) => some s
  | _ => none

/-- Reading `state_dict["val_evaluator"]`. -/
def getValEvaluator {C : Collabs} (sd : List (String × SdVal C)) : Option C.val_evaluator.Sd :=
  match sd.lookup "val_evaluator" with
  | some (SdVal.val_evaluator s) => some s
  | _ => none

/-- Reading `state_dict["callback"]`. -/
def getCallback {C : Collabs} (sd : List (String × SdVal C)) : Option C.callback.Sd :=
  match sd.lookup "callback" with
  | some (SdVal.callback s) => some s
  | _ => none

/-- Reading `state_dict["epoch"]`. -/
def getEpoch {C : Collabs} (sd : List (String × SdVal C)) : Option Int :=
  match sd.lookup "epoch" with
  | some (SdVal.epoch n) => some n
  | _ => none

/-- Embedding of `Trainer.load_state_dict` (trainer.py lines 124-131): restore the six
collaborators in source order and assign `epoch` last.  Each step may fail
(missing key, or the collaborator's own load raising); the partially-updated
trainer at the point of failure is returned together with the exception, as
Python leaves the already-mutated collaborators behind. -/
def load_state_dict {C : Collabs} (t : TrainerFull C) (sd : List (String × SdVal C)) :
    TrainerFull C × Option Exc :=
  match getModel sd with
  | none => (t, some keyError)
  | some ms =>
    match C.model.load ms t.model with
    | Except.error e => (t, some e)
    | Except.ok m =>
      let t1 := { t with model := m }
      match getOptimizer sd with
      | none => (t1, some keyError)
      | some os =>
        match C.optimizer.load os t1.optimizer with
        | Except.error e => (t1, some e)
        | Except.ok o =>
          let t2 := { t1 with optimizer := o }
          match getValueStore sd with
          | none => (t2, some keyError)
          | some vs =>
            match C.value_store.load vs t2.value_store with
            | Except.error e => (t2, some e)
            | Except.ok v =>
              let t3 := { t2 with value_store := v }
              match getTrainEvaluator sd with
              | none => (t3, some keyError)
              | some tes =>
                match C.train_evaluator.load tes t3.train_evaluator with
                | Except.error e => (t3, some e)
                | Except.ok te =>
                  let t4 := { t3 with train_evaluator := te }
                  match getValEvaluator sd with
                  | none => (t4, some keyError)
                  | some ves =>
                    match C.val_evaluator.load ves t4.val_evaluator with
                    | Except.error e => (t4, some e)
                    | Except.ok veS =>
                      let t5 := { t4 with val_evaluator := veS }
                      match getCallback sd with
                      | none => (t5, some keyError)
                      | some cs =>
                        match C.callback.load cs t5.callback with
                        | Except.error e => (t5, some e)
                        | Except.ok c =>
                          let t6 := { t5 with callback := c }
                          match getEpoch sd with
                          | none => (t6, some keyError)
                          | some n => ({ t6 with epoch := n }, none)

/-- A collaborator over `Nat` state whose serialization is the identity and
whose load always succeeds with the serialized value. -/
def natCollab : Collab :=
  { St := Nat, Sd := Nat, save := id, load := fun s _ => Except.ok s }

/-- A collaborator whose load always fails. -/
def failCollab : Collab :=
  { St := Nat, Sd := Nat, save := id, load := fun _ _ => Except.error (Exc.fatal 1) }

/-- Six identity collaborators. -/
def natCollabs : Collabs :=
  { model := natCollab, optimizer := natCollab, value_store := natCollab,
    train_evaluator := natCollab, val_evaluator := natCollab, callback := natCollab }

/-- Six identity collaborators except that the value store's load fails. -/
def failStoreCollabs : Collabs :=
  { model := natCollab, optimizer := natCollab, value_store := failCollab,
    train_evaluator := natCollab, val_evaluator := natCollab, callback := natCollab }

/-- A sample trainer over `natCollabs`. -/
def trainerA : TrainerFull natCollabs :=
  { model := (1 : Nat), optimizer := (2 : Nat), value_store := (3 : Nat),
    train_evaluator := (4 : Nat), val_evaluator := (5 : Nat),
    callback := (6 : Nat), epoch := 7 }

/-- Another sample trainer over `natCollabs`, used as the fresh instance a
checkpoint is restored onto. -/
def trainerB : TrainerFull natCollabs :=
  { model := (10 : Nat), optimizer := (20 : Nat), value_store := (30 : Nat),
    train_evaluator := (40 : Nat), val_evaluator := (50 : Nat),
    callback := (60 : Nat), epoch := 70 }

/-- A sample trainer over the failing-store collaborators. -/
def trainerC : TrainerFull failStoreCollabs :=
  { model := (1 : Nat), optimizer := (2 : Nat), value_store := (3 : Nat),
    train_evaluator := (4 : Nat), val_evaluator := (5 : Nat),
    callback := (6 : Nat), epoch := 7 }

end TrainerCheckpoint

namespace GroupRMSprop

/-- The per-group hyperparameter defaults `dict(lr=lr, beta=beta, eps=eps,
adjusted_lr=lr)` built by `GroupRMSprop.__init__`
(group_rmsprop_optimizer.py line 18). -/
structure Defaults where
  lr : Rat
  beta : Rat
  eps : Rat
  adjusted_lr : Rat
deriving DecidableEq, Repr

/-- Constructor argument validation of `GroupRMSprop.__init__`
(group_rmsprop_optimizer.py lines 10-19): `lr`, `eps` and `beta` are checked
in that order with `not 0.0 <= x`, raising ValueError (modelled as
`Except.error` carrying the message prefix) for a negative value, and on
success the defaults record is built with `adjusted_lr` initialized to `lr`. -/
def init (lr beta eps : Rat) : Except String Defaults :=
  if ¬ 0 ≤ lr then Except.error "Invalid learning rate"
  else if ¬ 0 ≤ eps then Except.error "Invalid epsilon value"
  else if ¬ 0 ≤ beta then Except.error "Invalid beta value"
  else Except.ok { lr := lr, beta := beta, eps := eps, adjusted_lr := lr }

end GroupRMSprop

namespace MSELoss

/-- Element-wise squared errors `(y_pred - y) ** 2` (regression.py line 23),
over same-length numeric vectors. -/
def squaredErrors (y_pred y : List Rat) : List Rat :=
  List.zipWith (fun a b => (a - b) ^ 2) y_pred y

/-- Tensor `.mean()`: the sum of the entries divided by their number. -/
def listMean (l : List Rat) : Rat := l.sum / (l.length : Rat)

/-- Embedding of `MSELoss._calc_metric` (regression.py lines 16-25): the squared errors are
reduced with `.mean()` when `self.reduction == "mean"` and with `.sum()` for
every other reduction value, and the pair (reduced loss, `len(y)`) is
returned. -/
def calc_metric (reduction : String) (y_pred y : List Rat) : Rat × Nat :=
  (if reduction = "mean" then listMean (squaredErrors y_pred y)
   else (squaredErrors y_pred y).sum,
   y.length)

end MSELoss

namespace TrainerCore

/-! Generic lemmas about runs of `M` computations. -/

theorem M.bind_def (a b : M) (st : TrainerSt) :
    M.bind a b st =
      match (a st).2.2 with
      | some _ => a st
      | none => ((b (a st).1).1, (a st).2.1 ++ (b (a st).1).2.1, (b (a st).1).2.2) := rfl

/-- Unfolding a sequence whose first part raised nothing. -/
theorem M.bind_step (a b : M) (st : TrainerSt) (h : (a st).2.2 = none) :
    M.bind a b st = ((b (a st).1).1, (a st).2.1 ++ (b (a st).1).2.1, (b (a st).1).2.2) := by
  rw [M.bind_def, h]

/-- If a sequenced run raised nothing, neither part raised. -/
theorem M.bind_none_inv (a b : M) (st : TrainerSt)
    (h : (M.bind a b st).2.2 = none) :
    (a st).2.2 = none ∧ (b (a st).1).2.2 = none := by
  cases hr : (a st).2.2 with
  | some e =>
    have hx : (M.bind a b st).2.2 = some e := by
      rw [M.bind_def, hr]; exact hr
    rw [hx] at h
    exact absurd h (by simp)
  | none =>
    rw [M.bind_step a b st hr] at h
    exact ⟨rfl, h⟩

/-- If a sequenced run raised nothing: neither part raised and the whole run is
the two runs glued together. -/
theorem M.bind_none_full (a b : M) (st : TrainerSt)
    (h : (M.bind a b st).2.2 = none) :
    (a st).2.2 = none ∧ (b (a st).1).2.2 = none ∧
      M.bind a b st = ((b (a st).1).1, (a st).2.1 ++ (b (a st).1).2.1, none) := by
  obtain ⟨h1, h2⟩ := M.bind_none_inv a b st h
  refine ⟨h1, h2, ?_⟩
  rw [M.bind_step a b st h1, h2]

theorem hookM_none (env : Env) (f : TrainerSt → Event) (st : TrainerSt)
    (h : (hookM env f st).2.2 = none) :
    hookM env f st = (st, [f st], none) := by
  have h' : env.raise st.epoch (f st) = none := h
  show (st, [f st], env.raise st.epoch (f st)) = _
  rw [h']

/-- A hook composition that raised nothing: the hook did not raise, and the
hook's event is prepended to the rest's run. -/
theorem hook_step (env : Env) (f : TrainerSt → Event) (rest : M) (st : TrainerSt)
    (h : (M.bind (hookM env f) rest st).2.2 = none) :
    (rest st).2.2 = none ∧
      M.bind (hookM env f) rest st = ((rest st).1, f st :: (rest st).2.1, none) := by
  obtain ⟨h1, h2⟩ := M.bind_none_inv _ _ _ h
  have h2' : (rest st).2.2 = none := h2
  refine ⟨h2', ?_⟩
  rw [M.bind_step _ _ _ h1]
  have h2'' : (rest (hookM env f st).1).2.2 = none := h2'
  rw [h2'']
  rfl

/-- Running `model.train(b)` followed by the rest. -/
theorem setMode_step (b : Bool) (rest : M) (st : TrainerSt) :
    M.bind (setMode b) rest st =
      ((rest { st with training := b }).1,
        Event.set_mode b :: (rest { st with training := b }).2.1,
        (rest { st with training := b }).2.2) := by
  have h0 : (setMode b st).2.2 = none := rfl
  rw [M.bind_step _ _ _ h0]
  rfl

/-- Running `self.epoch += 1` followed by the rest. -/
theorem incEpoch_step (rest : M) (st : TrainerSt) :
    M.bind incEpoch rest st =
      ((rest { st with epoch := st.epoch + 1 }).1,
        (rest { st with epoch := st.epoch + 1 }).2.1,
        (rest { st with epoch := st.epoch + 1 }).2.2) := by
  have h0 : (incEpoch st).2.2 = none := rfl
  rw [M.bind_step _ _ _ h0]
  rfl

theorem batchSeq_none (env : Env) (ks : List Nat) (st : TrainerSt)
    (h : (batchSeq env ks st).2.2 = none) :
    batchSeq env ks st = (st, batchTrace ks, none) := by
  induction ks generalizing st with
  | nil => rfl
  | cons k ks ih =>
    simp only [batchSeq] at h ⊢
    obtain ⟨h1, heq1⟩ := hook_step _ _ _ _ h
    obtain ⟨h2, heq2⟩ := hook_step _ _ _ _ h1
    obtain ⟨h3, heq3⟩ := hook_step _ _ _ _ h2
    obtain ⟨h4, heq4⟩ := hook_step _ _ _ _ h3
    rw [heq1, heq2, heq3, heq4, ih _ h4]
    simp [batchTrace, batchEvents]

theorem trainPhase_none (env : Env) (nb : Nat) (st : TrainerSt)
    (h : (trainPhase env nb st).2.2 = none) :
    trainPhase env nb st = ({ st with training := true }, trainTrace st.epoch nb, none) := by
  simp only [trainPhase] at h ⊢
  rw [setMode_step] at h ⊢
  dsimp only at h
  obtain ⟨h1, heq1⟩ := hook_step _ _ _ _ h
  obtain ⟨h2, heq2⟩ := hook_step _ _ _ _ h1
  obtain ⟨h3, h4, heq3⟩ := M.bind_none_full _ _ _ h2
  rw [batchSeq_none _ _ _ h3] at heq3 h4
  dsimp only at heq3 h4
  obtain ⟨h5, heq4⟩ := hook_step _ _ _ _ h4
  rw [heq1, heq2, heq3, heq4, hookM_none _ _ _ h5]
  simp [trainTrace]

theorem validatePhase_none (env : Env) (st : TrainerSt)
    (h : (validatePhase env st).2.2 = none) :
    validatePhase env st = ({ st with training := false }, valTrace st.epoch, none) := by
  simp only [validatePhase] at h ⊢
  rw [setMode_step] at h ⊢
  dsimp only at h
  obtain ⟨h1, heq1⟩ := hook_step _ _ _ _ h
  obtain ⟨h2, heq2⟩ := hook_step _ _ _ _ h1
  obtain ⟨h3, heq3⟩ := hook_step _ _ _ _ h2
  obtain ⟨h4, heq4⟩ := hook_step _ _ _ _ h3
  rw [heq1, heq2, heq3, heq4, hookM_none _ _ _ h4]
  simp [valTrace]

theorem epochIter_none (env : Env) (ve : Int) (nb : Nat) (st : TrainerSt)
    (h : (epochIter env ve nb st).2.2 = none) :
    ∃ m : Bool, epochIter env ve nb st =
      ({ epoch := st.epoch + 1, training := m },
        epochIterTrace ve nb (st.epoch + 1), none) := by
  simp only [epochIter] at h ⊢
  rw [incEpoch_step] at h ⊢
  dsimp only at h ⊢
  obtain ⟨h1, heq1⟩ := hook_step _ _ _ _ h
  dsimp only at heq1
  obtain ⟨h2, h3, heq2⟩ := M.bind_none_full _ _ _ h1
  rw [trainPhase_none _ _ _ h2] at heq2 h3
  dsimp only at heq2 h3
  obtain ⟨h4, h5, heq3⟩ := M.bind_none_full _ _ _ h3
  dsimp only at h4 h5 heq3
  by_cases hv : (st.epoch + 1 + 1) % ve = 0
  · rw [if_pos hv] at h4 h5 heq3
    rw [validatePhase_none _ _ h4] at h5 heq3
    dsimp only at h5 heq3
    refine ⟨false, ?_⟩
    rw [heq1, heq2, heq3, hookM_none _ _ _ h5]
    simp [epochIterTrace, hv]
  · rw [if_neg hv] at h4 h5 heq3
    have hp : M.pure { epoch := st.epoch + 1, training := true } =
        ({ epoch := st.epoch + 1, training := true }, ([] : List Event), (none : Option Exc)) := rfl
    rw [hp] at h5 heq3
    dsimp only at h5 heq3
    refine ⟨true, ?_⟩
    rw [heq1, heq2, heq3, hookM_none _ _ _ h5]
    simp [epochIterTrace, hv]

theorem epochLoop_none (env : Env) (ve : Int) (nb : Nat) (n : Nat) (st : TrainerSt)
    (h : (epochLoop env ve nb n st).2.2 = none) :
    ∃ m : Bool, epochLoop env ve nb n st =
      ({ epoch := st.epoch + n, training := m }, loopTrace ve nb st.epoch n, none) := by
  induction n generalizing st with
  | zero =>
    refine ⟨st.training, ?_⟩
    show (st, [], none) = _
    simp [loopTrace]
  | succ n ih =>
    simp only [epochLoop] at h ⊢
    obtain ⟨h1, h2, heq⟩ := M.bind_none_full _ _ _ h
    obtain ⟨m1, heq1⟩ := epochIter_none _ _ _ _ h1
    rw [heq1] at heq h2
    dsimp only at heq h2
    obtain ⟨m2, heq2⟩ := ih _ h2
    rw [heq2] at heq
    dsimp only at heq
    refine ⟨m2, ?_⟩
    rw [heq]
    have harith : st.epoch + 1 + (n : Int) = st.epoch + ((n : Nat) + 1 : Nat) := by
      push_cast; ring
    rw [harith]
    simp only [loopTrace]

theorem tryBlock_none (env : Env) (n : Nat) (ve : Int) (nb : Nat) (st : TrainerSt)
    (h : (tryBlock env n ve nb st).2.2 = none) :
    ∃ m : Bool, tryBlock env n ve nb st =
      ({ epoch := st.epoch + n, training := m },
        Event.on_fit_start n :: loopTrace ve nb st.epoch n, none) := by
  simp only [tryBlock] at h ⊢
  obtain ⟨h1, heq1⟩ := hook_step _ _ _ _ h
  obtain ⟨m, heq2⟩ := epochLoop_none _ _ _ _ _ h1
  refine ⟨m, ?_⟩
  rw [heq1, heq2]

/-- Closed form of a `fit` call during which nothing was raised. -/
theorem fit_none (env : Env) (st0 : TrainerSt) (n : Nat) (ve : Int) (nb : Nat)
    (h : (tryBlock env n ve nb st0).2.2 = none) :
    fit env st0 n ve nb =
      { st := { epoch := st0.epoch + n, training := st0.training },
        trace := (Event.on_fit_start n :: loopTrace ve nb st0.epoch n) ++
          [Event.on_fit_end (n : Int)],
        result := Except.ok
          { exception := none,
            train_tracked_values := some env.trainTracked,
            val_tracked_values := some env.valTracked } } := by
  obtain ⟨m, heq⟩ := tryBlock_none env n ve nb st0 h
  simp only [fit]
  rw [heq]
  dsimp only [fitEpilogue]
  have harith : st0.epoch + (n : Int) - st0.epoch = (n : Int) := by omega
  rw [harith]

theorem TraceOK.bind {a b : M} (ha : TraceOK a) (hb : TraceOK b) :
    TraceOK (M.bind a b) := by
  intro st x hx
  rw [M.bind_def] at hx
  cases hr : (a st).2.2 with
  | some e =>
    rw [hr] at hx
    exact ha _ _ hx
  | none =>
    rw [hr] at hx
    dsimp only at hx
    rcases List.mem_append.1 hx with h | h
    · exact ha _ _ h
    · exact hb _ _ h

theorem TraceOK.hookM (env : Env) (f : TrainerSt → Event)
    (hf : ∀ st, fitLoopEv (f st) = true) : TraceOK (hookM env f) := by
  intro st x hx
  have hx' : x ∈ [f st] := hx
  rw [List.mem_singleton.1 hx']
  exact hf st

theorem TraceOK.setMode (b : Bool) : TraceOK (setMode b) := by
  intro st x hx
  have hx' : x ∈ [Event.set_mode b] := hx
  rw [List.mem_singleton.1 hx']
  rfl

theorem TraceOK.incEpoch : TraceOK incEpoch := by
  intro st x hx
  exact absurd (hx : x ∈ ([] : List Event)) (List.not_mem_nil x)

theorem TraceOK.pure : TraceOK M.pure := by
  intro st x hx
  exact absurd (hx : x ∈ ([] : List Event)) (List.not_mem_nil x)

theorem batchSeq_traceOK (env : Env) (ks : List Nat) : TraceOK (batchSeq env ks) := by
  induction ks with
  | nil => exact TraceOK.pure
  | cons k ks ih =>
    exact TraceOK.bind (TraceOK.hookM _ _ fun _ => rfl)
      (TraceOK.bind (TraceOK.hookM _ _ fun _ => rfl)
        (TraceOK.bind (TraceOK.hookM _ _ fun _ => rfl)
          (TraceOK.bind (TraceOK.hookM _ _ fun _ => rfl) ih)))

theorem trainPhase_traceOK (env : Env) (nb : Nat) : TraceOK (trainPhase env nb) :=
  TraceOK.bind (TraceOK.setMode true)
    (TraceOK.bind (TraceOK.hookM _ _ fun _ => rfl)
      (TraceOK.bind (TraceOK.hookM _ _ fun _ => rfl)
        (TraceOK.bind (batchSeq_traceOK env _)
          (TraceOK.bind (TraceOK.hookM _ _ fun _ => rfl)
            (TraceOK.hookM _ _ fun _ => rfl)))))

theorem validatePhase_traceOK (env : Env) : TraceOK (validatePhase env) :=
  TraceOK.bind (TraceOK.setMode false)
    (TraceOK.bind (TraceOK.hookM _ _ fun _ => rfl)
      (TraceOK.bind (TraceOK.hookM _ _ fun _ => rfl)
        (TraceOK.bind (TraceOK.hookM _ _ fun _ => rfl)
          (TraceOK.bind (TraceOK.hookM _ _ fun _ => rfl)
            (TraceOK.hookM _ _ fun _ => rfl)))))

theorem epochIter_traceOK (env : Env) (ve : Int) (nb : Nat) :
    TraceOK (epochIter env ve nb) := by
  refine TraceOK.bind TraceOK.incEpoch
    (TraceOK.bind (TraceOK.hookM _ _ fun _ => rfl)
      (TraceOK.bind (trainPhase_traceOK env nb)
        (TraceOK.bind ?_ (TraceOK.hookM _ _ fun _ => rfl))))
  intro st x hx
  dsimp only at hx
  by_cases hv : (st.epoch + 1) % ve = 0
  · rw [if_pos hv] at hx
    exact validatePhase_traceOK env _ _ hx
  · rw [if_neg hv] at hx
    exact TraceOK.pure _ _ hx

theorem epochLoop_traceOK (env : Env) (ve : Int) (nb : Nat) (n : Nat) :
    TraceOK (epochLoop env ve nb n) := by
  induction n with
  | zero => exact TraceOK.pure
  | succ n ih => exact TraceOK.bind (epochIter_traceOK env ve nb) ih

theorem tryBlock_traceOK (env : Env) (n : Nat) (ve : Int) (nb : Nat) :
    TraceOK (tryBlock env n ve nb) :=
  TraceOK.bind (TraceOK.hookM _ _ fun _ => rfl) (epochLoop_traceOK env ve nb n)

theorem on_exception_not_mem_tryBlock (env : Env) (n : Nat) (ve : Int) (nb : Nat)
    (st : TrainerSt) (e : Exc) :
    Event.on_exception e ∉ (tryBlock env n ve nb st).2.1 := by
  intro hmem
  have := tryBlock_traceOK env n ve nb st _ hmem
  simp [fitLoopEv] at this

theorem on_fit_end_not_mem_tryBlock (env : Env) (n : Nat) (ve : Int) (nb : Nat)
    (st : TrainerSt) (k : Int) :
    Event.on_fit_end k ∉ (tryBlock env n ve nb st).2.1 := by
  intro hmem
  have := tryBlock_traceOK env n ve nb st _ hmem
  simp [fitLoopEv] at this

/-! Characterizing which epochs run a validation phase (for the
validation-cadence claim) and how many epoch iterations happen (for the
epoch-count claim). -/

theorem validation_mem_iterTrace (ve : Int) (nb : Nat) (e ep : Int) :
    Event.on_epoch_validation_start ep ∈ epochIterTrace ve nb e ↔
      (ep = e ∧ (e + 1) % ve = 0) := by
  by_cases hv : (e + 1) % ve = 0 <;>
    simp [epochIterTrace, trainTrace, valTrace, batchTrace, batchEvents, hv]

theorem validation_mem_loopTrace (ve : Int) (nb : Nat) (s : Int) (n : Nat) (ep : Int) :
    Event.on_epoch_validation_start ep ∈ loopTrace ve nb s n ↔
      ((∃ i : Nat, i < n ∧ ep = s + 1 + i) ∧ (ep + 1) % ve = 0) := by
  induction n generalizing s with
  | zero => simp [loopTrace]
  | succ n ih =>
    rw [loopTrace, List.mem_append, validation_mem_iterTrace, ih]
    constructor
    · rintro (⟨rfl, hc⟩ | ⟨⟨i, hi, rfl⟩, hc⟩)
      · exact ⟨⟨0, by omega, by omega⟩, hc⟩
      · exact ⟨⟨i + 1, by omega, by omega⟩, hc⟩
    · rintro ⟨⟨i, hi, rfl⟩, hc⟩
      cases i with
      | zero => exact Or.inl ⟨by omega, by simpa using hc⟩
      | succ j => exact Or.inr ⟨⟨j, by omega, by omega⟩, hc⟩

theorem countP_epochStart_batchTrace (ks : List Nat) :
    (batchTrace ks).countP isEpochStartEv = 0 := by
  induction ks with
  | nil => rfl
  | cons k ks ih =>
    rw [batchTrace] at ih ⊢
    rw [List.flatMap_cons, List.countP_append, ih]
    rfl

theorem countP_epochStart_iterTrace (ve : Int) (nb : Nat) (e : Int) :
    (epochIterTrace ve nb e).countP isEpochStartEv = 1 := by
  rw [epochIterTrace, trainTrace]
  by_cases hv : (e + 1) % ve = 0 <;>
    simp [hv, List.countP_append, countP_epochStart_batchTrace, valTrace,
      List.countP_cons, isEpochStartEv]

theorem countP_epochStart_loopTrace (ve : Int) (nb : Nat) (s : Int) (n : Nat) :
    (loopTrace ve nb s n).countP isEpochStartEv = n := by
  induction n generalizing s with
  | zero => rfl
  | succ n ih =>
    rw [loopTrace, List.countP_append, countP_epochStart_iterTrace, ih]
    omega

/-! The claims. -/

/-- C1: whenever a `StopFitIteration` is raised anywhere in the fit protocol
(the hypothesis says the `try` block of this `fit` call ended with the
graceful-stop signal), `fit` emits `on_exception` with that signal, records it
on the returned FitOutput's `exception` field, still populates both
tracked-value snapshots, still emits `on_fit_end`, and returns the FitOutput
normally (`Except.ok`, not an error); the trainer's epoch field keeps the
value it had when the signal was raised. -/
theorem claim_C1_graceful_stop (env : Env) (st0 : TrainerSt) (n : Nat) (ve : Int)
    (nb : Nat) (i : Nat)
    (h : (tryBlock env n ve nb st0).2.2 = some (Exc.stopFit i)) :
    fit env st0 n ve nb =
      { st := { epoch := (tryBlock env n ve nb st0).1.epoch, training := st0.training },
        trace := (tryBlock env n ve nb st0).2.1 ++
          [Event.on_exception (Exc.stopFit i),
           Event.on_fit_end ((tryBlock env n ve nb st0).1.epoch - st0.epoch)],
        result := Except.ok
          { exception := some (Exc.stopFit i),
            train_tracked_values := some env.trainTracked,
            val_tracked_values := some env.valTracked } } := by
  simp only [fit]
  rcases htb : tryBlock env n ve nb st0 with ⟨st1, t1, r⟩
  rw [htb] at h
  dsimp only at h
  subst h
  rfl

/-- C1 witness: raising the stop signal from `on_train_batch_end` at epoch 2
of a 10-epoch run returns normally with the signal recorded and leaves
`epoch == 2`. -/
theorem claim_C1_witness :
    (fit stopAtEpoch2Env (Trainer.new true) 10 1 1 =
      { st := { epoch := (tryBlock stopAtEpoch2Env 10 1 1 (Trainer.new true)).1.epoch,
                training := (Trainer.new true).training },
        trace := (tryBlock stopAtEpoch2Env 10 1 1 (Trainer.new true)).2.1 ++
          [Event.on_exception (Exc.stopFit 7),
           Event.on_fit_end
             ((tryBlock stopAtEpoch2Env 10 1 1 (Trainer.new true)).1.epoch -
               (Trainer.new true).epoch)],
        result := Except.ok
          { exception := some (Exc.stopFit 7),
            train_tracked_values := some stopAtEpoch2Env.trainTracked,
            val_tracked_values := some stopAtEpoch2Env.valTracked } }) ∧
    (fit stopAtEpoch2Env (Trainer.new true) 10 1 1).st.epoch = 2 :=
  ⟨claim_C1_graceful_stop stopAtEpoch2Env (Trainer.new true) 10 1 1 7 (by decide),
   by decide⟩

/-- C2: whenever an exception other than `StopFitIteration` is raised during
the fit loop (the hypothesis says the `try` block ended with a generic
exception), `fit` re-raises the same exception unchanged (`Except.error`, so
no FitOutput is returned), its trace is the loop's trace followed by a single
`on_exception` with that exception (so `on_exception` fires exactly once), and
no `on_fit_end` is emitted on this path. -/
theorem claim_C2_fatal_error (env : Env) (st0 : TrainerSt) (n : Nat) (ve : Int)
    (nb : Nat) (i : Nat)
    (h : (tryBlock env n ve nb st0).2.2 = some (Exc.fatal i)) :
    (fit env st0 n ve nb).result = Except.error (Exc.fatal i) ∧
    (fit env st0 n ve nb).trace =
      (tryBlock env n ve nb st0).2.1 ++ [Event.on_exception (Exc.fatal i)] ∧
    (fit env st0 n ve nb).trace.count (Event.on_exception (Exc.fatal i)) = 1 ∧
    (fit env st0 n ve nb).trace.countP isFitEndEv = 0 := by
  have hne : Event.on_exception (Exc.fatal i) ∉ (tryBlock env n ve nb st0).2.1 :=
    on_exception_not_mem_tryBlock env n ve nb st0 (Exc.fatal i)
  have hfe : ∀ x ∈ (tryBlock env n ve nb st0).2.1, ¬ isFitEndEv x = true := by
    intro x hx hcontra
    have hok := tryBlock_traceOK env n ve nb st0 x hx
    cases x <;> simp [isFitEndEv] at hcontra
    simp [fitLoopEv] at hok
  simp only [fit]
  rcases htb : tryBlock env n ve nb st0 with ⟨st1, t1, r⟩
  rw [htb] at h hne hfe
  dsimp only at h hne hfe
  subst h
  refine ⟨rfl, rfl, ?_, ?_⟩
  · show (t1 ++ [Event.on_exception (Exc.fatal i)]).count (Event.on_exception (Exc.fatal i)) = 1
    rw [List.count_append, List.count_eq_zero.mpr hne]
    simp [List.count_singleton]
  · show (t1 ++ [Event.on_exception (Exc.fatal i)]).countP isFitEndEv = 0
    rw [List.countP_append, List.countP_eq_zero.mpr hfe]
    rfl

/-- C2 witness: a generic error raised from `batch_update` propagates out of
`fit` after exactly one `on_exception`, with no `on_fit_end`. -/
theorem claim_C2_witness :
    (fit fatalBatchEnv (Trainer.new false) 3 1 1).result = Except.error (Exc.fatal 3) ∧
    (fit fatalBatchEnv (Trainer.new false) 3 1 1).trace =
      (tryBlock fatalBatchEnv 3 1 1 (Trainer.new false)).2.1 ++
        [Event.on_exception (Exc.fatal 3)] ∧
    (fit fatalBatchEnv (Trainer.new false) 3 1 1).trace.count
      (Event.on_exception (Exc.fatal 3)) = 1 ∧
    (fit fatalBatchEnv (Trainer.new false) 3 1 1).trace.countP isFitEndEv = 0 :=
  claim_C2_fatal_error fatalBatchEnv (Trainer.new false) 3 1 1 3 (by decide)

/-- C3: in a `fit` call during which nothing was raised, a validation phase
starts at epoch `ep` (an `on_epoch_validation_start ep` event is emitted) iff
`ep` is the epoch counter of one of the `n` loop iterations
(`st0.epoch + 1 + i` for some `i < n`) and `(ep + 1) % validate_every == 0`.
The positivity hypothesis keeps the statement inside the domain where the
embedding is faithful (`validate_every = 0` raises ZeroDivisionError in
Python). -/
theorem claim_C3_validation_cadence (env : Env) (st0 : TrainerSt) (n : Nat)
    (ve : Int) (nb : Nat) (ep : Int) (_hve : 0 < ve)
    (h : (tryBlock env n ve nb st0).2.2 = none) :
    Event.on_epoch_validation_start ep ∈ (fit env st0 n ve nb).trace ↔
      ((∃ i : Nat, i < n ∧ ep = st0.epoch + 1 + i) ∧ (ep + 1) % ve = 0) := by
  rw [fit_none env st0 n ve nb h]
  dsimp only
  simp [validation_mem_loopTrace]

/-- C3 witness: a fresh trainer with `validate_every = 2` over 4 epochs runs a
validation phase at epoch 1. -/
theorem claim_C3_witness :
    Event.on_epoch_validation_start 1 ∈ (fit noRaiseEnv (Trainer.new true) 4 2 1).trace :=
  (claim_C3_validation_cadence noRaiseEnv (Trainer.new true) 4 2 1 1
    (by decide) (by decide)).mpr ⟨⟨1, by omega, by decide⟩, by decide⟩

/-- C4: the model's train/eval mode after `fit` exits equals the mode it had
on entry, with no hypothesis on the environment, so on all three exit paths:
normal completion, graceful stop, and fatal error. -/
theorem claim_C4_mode_restored (env : Env) (st0 : TrainerSt) (n : Nat) (ve : Int)
    (nb : Nat) :
    (fit env st0 n ve nb).st.training = st0.training := by
  simp only [fit]
  rcases tryBlock env n ve nb st0 with ⟨st1, t1, r⟩
  rcases r with _ | e
  · rfl
  · rcases e with i | i <;> rfl

/-- C5: a training phase during which nothing was raised performs exactly, in
order: set the model to train mode; `on_epoch_train_start` with the batch
count; `train_evaluator.epoch_start(epoch)`; per batch in data-loader order
`on_train_batch_start`, `batch_update`, the evaluator's `evaluate_batch` on
its output, `on_train_batch_end`; then `train_evaluator.epoch_end(epoch)` and
`on_epoch_train_end`. -/
theorem claim_C5_train_phase_order (env : Env) (nb : Nat) (st : TrainerSt)
    (h : (trainPhase env nb st).2.2 = none) :
    trainPhase env nb st =
      ({ st with training := true },
        [Event.set_mode true, Event.on_epoch_train_start nb,
         Event.train_evaluator_epoch_start st.epoch] ++
        (List.range nb).flatMap (fun k =>
          [Event.on_train_batch_start k, Event.batch_update k,
           Event.evaluate_batch k, Event.on_train_batch_end k]) ++
        [Event.train_evaluator_epoch_end st.epoch, Event.on_epoch_train_end st.epoch],
        none) := by
  rw [trainPhase_none env nb st h]
  rfl

/-- C5 witness: the training phase at epoch 5 over two batches, under an
environment that never raises, produces exactly the scripted event order. -/
theorem claim_C5_witness :
    trainPhase noRaiseEnv 2 { epoch := 5, training := false } =
      ({ epoch := 5, training := true },
        [Event.set_mode true, Event.on_epoch_train_start 2,
         Event.train_evaluator_epoch_start 5] ++
        (List.range 2).flatMap (fun k =>
          [Event.on_train_batch_start k, Event.batch_update k,
           Event.evaluate_batch k, Event.on_train_batch_end k]) ++
        [Event.train_evaluator_epoch_end 5, Event.on_epoch_train_end 5],
        none) :=
  claim_C5_train_phase_order noRaiseEnv 2 { epoch := 5, training := false } (by decide)

/-- C6: the epoch counter is initialized to -1 at construction, and a `fit`
call during which nothing was raised runs the epoch loop exactly `N` times
(`N` `on_epoch_start` events) and leaves `epoch = start_epoch + N`.  The
positivity hypothesis keeps `validate_every` inside the faithful domain. -/
theorem claim_C6_epoch_count (env : Env) (st0 : TrainerSt) (N : Nat) (ve : Int)
    (nb : Nat) (_hve : 0 < ve)
    (h : (tryBlock env N ve nb st0).2.2 = none) :
    (Trainer.new true).epoch = -1 ∧ (Trainer.new false).epoch = -1 ∧
    (fit env st0 N ve nb).st.epoch = st0.epoch + N ∧
    (fit env st0 N ve nb).trace.countP isEpochStartEv = N := by
  refine ⟨rfl, rfl, ?_, ?_⟩
  · rw [fit_none env st0 N ve nb h]
  · rw [fit_none env st0 N ve nb h]
    dsimp only
    simp [List.countP_append, List.countP_cons, isEpochStartEv,
      countP_epochStart_loopTrace]

/-- C6 witness: a fresh trainer fitted for 4 epochs with nothing raised ends
at epoch 3 after exactly 4 epoch iterations. -/
theorem claim_C6_witness :
    (Trainer.new true).epoch = -1 ∧ (Trainer.new false).epoch = -1 ∧
    (fit noRaiseEnv (Trainer.new true) 4 2 3).st.epoch = (Trainer.new true).epoch + 4 ∧
    (fit noRaiseEnv (Trainer.new true) 4 2 3).trace.countP isEpochStartEv = 4 :=
  claim_C6_epoch_count noRaiseEnv (Trainer.new true) 4 2 3 (by decide) (by decide)

end TrainerCore

namespace TrainerCheckpoint

open TrainerCore (Exc)

/-- Any run of `load_state_dict` either succeeds or leaves `epoch` at the
value the trainer held before the call. -/
theorem load_state_dict_epoch {C : Collabs} (u : TrainerFull C)
    (sd : List (String × SdVal C)) :
    (load_state_dict u sd).2 = none ∨ (load_state_dict u sd).1.epoch = u.epoch := by
  simp only [load_state_dict]
  repeat' split
  all_goals simp

theorem getModel_state_dict {C : Collabs} (t : TrainerFull C) :
    getModel (state_dict t) = some (C.model.save t.model) := rfl

theorem getOptimizer_state_dict {C : Collabs} (t : TrainerFull C) :
    getOptimizer (state_dict t) = some (C.optimizer.save t.optimizer) := rfl

theorem getValueStore_state_dict {C : Collabs} (t : TrainerFull C) :
    getValueStore (state_dict t) = some (C.value_store.save t.value_store) := rfl

theorem getTrainEvaluator_state_dict {C : Collabs} (t : TrainerFull C) :
    getTrainEvaluator (state_dict t) = some (C.train_evaluator.save t.train_evaluator) := rfl

theorem getValEvaluator_state_dict {C : Collabs} (t : TrainerFull C) :
    getValEvaluator (state_dict t) = some (C.val_evaluator.save t.val_evaluator) := rfl

theorem getCallback_state_dict {C : Collabs} (t : TrainerFull C) :
    getCallback (state_dict t) = some (C.callback.save t.callback) := rfl

theorem getEpoch_state_dict {C : Collabs} (t : TrainerFull C) :
    getEpoch (state_dict t) = some t.epoch := rfl

/-- C7: `state_dict()` returns a mapping whose keys are exactly `model`,
`optimizer`, `value_store`, `train_evaluator`, `val_evaluator`, `callback`,
`epoch`, with each value the corresponding collaborator's own serialized
state and `epoch` the integer counter; `load_state_dict` restores each
collaborator from the same-named key and assigns `epoch` last, so a failure
while restoring any collaborator leaves the epoch counter unchanged. -/
theorem claim_C7_checkpoint_contract {C : Collabs} (t u : TrainerFull C)
    (sd : List (String × SdVal C)) (e : Exc)
    (h : (load_state_dict u sd).2 = some e) :
    (state_dict t).map Prod.fst =
      ["model", "optimizer", "value_store", "train_evaluator", "val_evaluator",
       "callback", "epoch"] ∧
    (state_dict t).lookup "model" = some (SdVal.model (C.model.save t.model)) ∧
    (state_dict t).lookup "optimizer" = some (SdVal.optimizer (C.optimizer.save t.optimizer)) ∧
    (state_dict t).lookup "value_store" = some (SdVal.value_store (C.value_store.save t.value_store)) ∧
    (state_dict t).lookup "train_evaluator" = some (SdVal.train_evaluator (C.train_evaluator.save t.train_evaluator)) ∧
    (state_dict t).lookup "val_evaluator" = some (SdVal.val_evaluator (C.val_evaluator.save t.val_evaluator)) ∧
    (state_dict t).lookup "callback" = some (SdVal.callback (C.callback.save t.callback)) ∧
    (state_dict t).lookup "epoch" = some (SdVal.epoch t.epoch) ∧
    (load_state_dict u sd).1.epoch = u.epoch := by
  refine ⟨rfl, rfl, rfl, rfl, rfl, rfl, rfl, rfl, ?_⟩
  rcases load_state_dict_epoch u sd with hok | hep
  · rw [hok] at h
    exact absurd h (by simp)
  · exact hep

/-- C7 witness: on a checkpoint whose `value_store` entry fails to load, the
restore stops with the exception and the epoch counter is unchanged. -/
theorem claim_C7_witness :
    (state_dict trainerC).map Prod.fst =
      ["model", "optimizer", "value_store", "train_evaluator", "val_evaluator",
       "callback", "epoch"] ∧
    (state_dict trainerC).lookup "model" =
      some (SdVal.model (failStoreCollabs.model.save trainerC.model)) ∧
    (state_dict trainerC).lookup "optimizer" =
      some (SdVal.optimizer (failStoreCollabs.optimizer.save trainerC.optimizer)) ∧
    (state_dict trainerC).lookup "value_store" =
      some (SdVal.value_store (failStoreCollabs.value_store.save trainerC.value_store)) ∧
    (state_dict trainerC).lookup "train_evaluator" =
      some (SdVal.train_evaluator (failStoreCollabs.train_evaluator.save trainerC.train_evaluator)) ∧
    (state_dict trainerC).lookup "val_evaluator" =
      some (SdVal.val_evaluator (failStoreCollabs.val_evaluator.save trainerC.val_evaluator)) ∧
    (state_dict trainerC).lookup "callback" =
      some (SdVal.callback (failStoreCollabs.callback.save trainerC.callback)) ∧
    (state_dict trainerC).lookup "epoch" = some (SdVal.epoch trainerC.epoch) ∧
    (load_state_dict trainerC (state_dict trainerC)).1.epoch = trainerC.epoch :=
  claim_C7_checkpoint_contract trainerC trainerC (state_dict trainerC)
    (Exc.fatal 1) rfl

/-- C8: restoring a captured checkpoint onto a trainer with the same
collaborators (each of whose save/load round-trips, as the recursive
checkpoint contract requires) reproduces the captured state exactly, so a
subsequent `fit` behaves identically to one started from the original
instance. -/
theorem claim_C8_roundtrip {C : Collabs} (t u : TrainerFull C)
    (env : TrainerCore.Env) (mode : Bool) (n : Nat) (ve : Int) (nb : Nat)
    (hm : C.model.load (C.model.save t.model) u.model = Except.ok t.model)
    (ho : C.optimizer.load (C.optimizer.save t.optimizer) u.optimizer = Except.ok t.optimizer)
    (hvs : C.value_store.load (C.value_store.save t.value_store) u.value_store = Except.ok t.value_store)
    (hte : C.train_evaluator.load (C.train_evaluator.save t.train_evaluator) u.train_evaluator = Except.ok t.train_evaluator)
    (hvev : C.val_evaluator.load (C.val_evaluator.save t.val_evaluator) u.val_evaluator = Except.ok t.val_evaluator)
    (hc : C.callback.load (C.callback.save t.callback) u.callback = Except.ok t.callback) :
    load_state_dict u (state_dict t) = (t, none) ∧
    TrainerCore.fit env
        { epoch := (load_state_dict u (state_dict t)).1.epoch, training := mode } n ve nb =
      TrainerCore.fit env { epoch := t.epoch, training := mode } n ve nb := by
  have hload : load_state_dict u (state_dict t) = (t, none) := by
    unfold load_state_dict
    rw [getModel_state_dict, getOptimizer_state_dict, getValueStore_state_dict,
      getTrainEvaluator_state_dict, getValEvaluator_state_dict,
      getCallback_state_dict, getEpoch_state_dict]
    dsimp only
    rw [hm]; dsimp only
    rw [ho]; dsimp only
    rw [hvs]; dsimp only
    rw [hte]; dsimp only
    rw [hvev]; dsimp only
    rw [hc]
  refine ⟨hload, ?_⟩
  rw [hload]

/-- C8 witness: a checkpoint of `trainerA` restored onto `trainerB` over the
identity collaborators reproduces `trainerA` exactly, and the next `fit` from
the restored epoch equals the next `fit` from the original. -/
theorem claim_C8_witness :
    load_state_dict trainerB (state_dict trainerA) = (trainerA, none) ∧
    TrainerCore.fit TrainerCore.noRaiseEnv
        { epoch := (load_state_dict trainerB (state_dict trainerA)).1.epoch,
          training := true } 2 1 1 =
      TrainerCore.fit TrainerCore.noRaiseEnv
        { epoch := trainerA.epoch, training := true } 2 1 1 :=
  claim_C8_roundtrip trainerA trainerB TrainerCore.noRaiseEnv true 2 1 1
    rfl rfl rfl rfl rfl rfl

end TrainerCheckpoint

namespace GroupRMSprop

/-- C9: the constructor raises ValueError iff `lr < 0` or `eps < 0` or
`beta < 0` (each of `lr = 0`, `eps = 0`, `beta = 0` is accepted), and on
success it builds the per-group defaults `lr`, `beta`, `eps` with
`adjusted_lr` initialized equal to `lr`. -/
theorem claim_C9_group_rmsprop_validation (lr beta eps : Rat) :
    ((∃ s : String, init lr beta eps = Except.error s) ↔
      (lr < 0 ∨ eps < 0 ∨ beta < 0)) ∧
    (0 ≤ lr → 0 ≤ eps → 0 ≤ beta →
      init lr beta eps =
        Except.ok { lr := lr, beta := beta, eps := eps, adjusted_lr := lr }) := by
  constructor
  · unfold init
    split_ifs with h1 h2 h3 <;> simp_all [not_le]
  · intro h1 h2 h3
    unfold init
    rw [if_neg (not_not_intro h1), if_neg (not_not_intro h2), if_neg (not_not_intro h3)]

/-- C9 witness: the boundary values `lr = eps = beta = 0` are accepted and
produce defaults with `adjusted_lr = lr`. -/
theorem claim_C9_witness :
    init 0 0 0 = Except.ok { lr := 0, beta := 0, eps := 0, adjusted_lr := 0 } :=
  (claim_C9_group_rmsprop_validation 0 0 0).2 le_rfl le_rfl le_rfl

end GroupRMSprop

namespace MSELoss

/-- C10: `_calc_metric` returns (mean of the squared element-wise errors,
`len(y)`) when `reduction == "mean"`, and for every other reduction value,
including the docstring-supported `"none"`, it returns (sum of the squared
element-wise errors, `len(y)`); no unreduced result is ever produced. -/
theorem claim_C10_mse_reduction (r : String) (y_pred y : List Rat)
    (hr : r ≠ "mean") :
    calc_metric "mean" y_pred y = (listMean (squaredErrors y_pred y), y.length) ∧
    calc_metric r y_pred y = ((squaredErrors y_pred y).sum, y.length) ∧
    calc_metric "none" y_pred y = ((squaredErrors y_pred y).sum, y.length) := by
  refine ⟨rfl, ?_, ?_⟩
  · unfold calc_metric
    rw [if_neg hr]
  · unfold calc_metric
    rw [if_neg (by decide : ("none" : String) ≠ "mean")]

/-- C10 witness: with predictions `[3, 1]` and targets `[1, 1]`, the `"none"`
reduction collapses to the sum `4` with sample count `2`, while `"mean"`
yields `2`. -/
theorem claim_C10_witness :
    calc_metric "mean" [3, 1] [1, 1] = (listMean (squaredErrors [3, 1] [1, 1]), 2) ∧
    calc_metric "none" [3, 1] [1, 1] = ((squaredErrors [3, 1] [1, 1]).sum, 2) ∧
    calc_metric "none" [3, 1] [1, 1] = ((squaredErrors [3, 1] [1, 1]).sum, 2) :=
  claim_C10_mse_reduction "none" [3, 1] [1, 1] (by decide)

end MSELoss
